import Mathlib

/-!
Shallow embedding of src/generador_pdf.py (class GeneradorPDF), the report
builder of the consultor-marcas repository, together with proofs about its
filename sanitization, HTML composition and error handling.

Modelling conventions:
- a Python string is a list of characters (Str);
- a Python dict input with known keys is a structure with Option fields
  (an absent key is Option.none, dict.get supplies the default);
- datetime.now() is an explicit clock record passed to the functions;
- the WeasyPrint renderer together with the filesystem write is an explicit
  oracle of type Str -> Str -> Str -> Except Str Unit: the try/except of
  generar_reporte catches exactly the failures this oracle signals.
-/

/-- A Python string, modelled as its list of characters. -/
abbrev Str := List Char

/-- Character list of a Lean string literal (notation helper for Str). -/
def str (s : String) : Str := s.toList

/-- Model of Python str.isalnum, exact on the Basic Latin and Latin-1
Supplement blocks (the character ranges used by the inputs of this repository):
ASCII letters and digits, the Latin-1 letters including U+00AA, U+00B5,
U+00BA and U+00C0-U+00FF minus the multiplication and division signs, and
the Latin-1 numeric characters U+00B2, U+00B3, U+00B9, U+00BC-U+00BE. -/
def pyIsAlnum (c : Char) : Bool :=
  c.isAlphanum ||
    (let n := c.toNat
     n == 0xAA || n == 0xB5 || n == 0xBA ||
     n == 0xB2 || n == 0xB3 || n == 0xB9 ||
     (0xBC ≤ n && n ≤ 0xBE) ||
     (0xC0 ≤ n && n ≤ 0xFF && n ≠ 0xD7 && n ≠ 0xF7))

/-- Model of Python str.upper, exact on ASCII (the risk-level keys BAJO,
MEDIO, ALTO compared against it are ASCII). -/
def pyUpper (s : Str) : Str := s.map Char.toUpper

/-- Model of Python str.strip(chars): remove from both ends every leading
and every trailing character belonging to the given set. -/
def pyStripChars (cs : List Char) (s : Str) : Str :=
  ((s.dropWhile (cs.contains ·)).reverse.dropWhile (cs.contains ·)).reverse

/-- The ASCII whitespace characters of Python str.strip() with no
argument (the data of this repository never reaches the non-ASCII ones). -/
def pyWs : List Char := [' ', '\t', '\n', '\x0d', '\x0b', '\x0c']

/-- Model of Python str.strip() with no argument. -/
def pyStripWs (s : Str) : Str := pyStripChars pyWs s

/-- Model of Python str.split(sep) for a one-character separator: empty
pieces are kept, and the empty string splits to one empty piece. -/
def pySplit (sep : Char) (s : Str) : List Str :=
  s.foldr
    (fun c acc =>
      if c = sep then [] :: acc
      else
        match acc with
        | [] => [[c]]
        | h :: t => (c :: h) :: t)
    [[]]

/-- Model of Python str.replace(old, new) for one-character old and new. -/
def pyReplaceChar (old new : Char) (s : Str) : Str :=
  s.map (fun c => if c = old then new else c)

/-- Model of os.path.join for the shapes this module produces: a relative
second component appended to the folder with a single separator. -/
def pyPathJoin (folder name : Str) : Str :=
  if folder = [] then name
  else if folder.getLast? = some '/' then folder ++ name
  else folder ++ '/' :: name

/-- Decimal rendering of a Nat, as Python str interpolation gives it. -/
def natStr (n : Nat) : Str := (toString n).toList

/-- Decimal rendering of an Int, as Python str interpolation gives it. -/
def intStr (n : Int) : Str := (toString n).toList

/-- Naive substring test on modelled Python strings. -/
def esSubcadena (pat s : Str) : Bool :=
  (List.range (s.length + 1)).any (fun i => (s.drop i).take pat.length == pat)

example : pyStripChars [' ', '-'] (str " -ab- ") = str "ab" := by decide
example : pySplit '\n' (str "a\n\nb") = [str "a", str "", str "b"] := by decide
example : pySplit '\n' (str "") = [str ""] := by decide
example : pyUpper (str "bajo") = str "BAJO" := by decide
example : pyIsAlnum 'é' = true := by decide
example : pyIsAlnum '!' = false := by decide
example : esSubcadena (str "bc") (str "abcd") = true := by decide
example : esSubcadena (str "bd") (str "abcd") = false := by decide

/-- The lead dict: the keys this module reads (absent key = none). -/
structure Lead where
  marca : Option Str
  nombre : Option Str
  clase_sugerida : Option Str

/-- One entry of marcas_conflictivas: the keys _generar_tabla_marcas reads. -/
structure Marca where
  denominacion : Option Str
  expediente : Option Str
  titular : Option Str
  clase : Option Str
  estado : Option Str
deriving DecidableEq

/-- A value that arrives either as a single string with embedded line
breaks or already as a list of strings: the isinstance(.., str) branches
of lines 108-113 of _generar_html. -/
inductive StrOrList where
  | s : Str → StrOrList
  | l : List Str → StrOrList

/-- The analysis dict: the keys this module reads (absent key = none). -/
structure Analisis where
  porcentaje_viabilidad : Option Int
  nivel_riesgo : Option Str
  analisis_principal : Option Str
  factores_riesgo : Option StrOrList
  factores_favorables : Option StrOrList
  recomendaciones : Option StrOrList
  marcas_conflictivas : Option (List Marca)

/-- The GeneradorPDF instance state set in __init__. -/
structure GeneradorPDF where
  pdf_folder : Str
  logo_path : Option Str

/-- One reading of datetime.now(): the calendar fields used for the
Spanish date line of the header and the strftime %Y%m%d_%H%M%S timestamp
used in the filename. datetime guarantees 1 ≤ mes ≤ 12. -/
structure Reloj where
  dia : Nat
  mes : Nat
  anio : Nat
  timestamp : Str

/-- Lines 49-50: the brand-name sanitization chain. Keep the characters
that are alphanumeric or in (' ', '-', '_'), strip surrounding whitespace,
replace spaces by underscores, truncate to 50 characters. -/
def marca_limpia (marca : Str) : Str :=
  (pyReplaceChar ' ' '_'
    (pyStripWs
      (marca.filter (fun c => pyIsAlnum c || c == ' ' || c == '-' || c == '_')))).take 50

/-- Line 49 start: lead.get("marca", "marca") fed into the sanitization. -/
def marca_para_archivo (lead : Lead) : Str :=
  marca_limpia (lead.marca.getD (str "marca"))

/-- Line 54: the generated filename reporte_<stem>_<timestamp>.pdf. -/
def nombre_archivo (lead : Lead) (r : Reloj) : Str :=
  str "reporte_" ++ marca_para_archivo lead ++ str "_" ++ r.timestamp ++ str ".pdf"

/-- Line 55: os.path.join(self.pdf_folder, filename). -/
def ruta_archivo (g : GeneradorPDF) (lead : Lead) (r : Reloj) : Str :=
  pyPathJoin g.pdf_folder (nombre_archivo lead r)

/-- Lines 93-94: the Spanish month names. -/
def meses : List Str :=
  [str "enero", str "febrero", str "marzo", str "abril", str "mayo",
   str "junio", str "julio", str "agosto", str "septiembre", str "octubre",
   str "noviembre", str "diciembre"]

/-- Line 96: the long-form Spanish date of the header. -/
def fecha_analisis (r : Reloj) : Str :=
  natStr r.dia ++ str " de " ++ meses.getD (r.mes - 1) (str "") ++
    str " de " ++ natStr r.anio

/-- The marker characters of strip("• ") on lines 109 and 111. -/
def vinietaChars : List Char := ['•', ' ']

/-- The marker characters of strip("1234567890. ") on line 113. -/
def numeroChars : List Char :=
  ['1', '2', '3', '4', '5', '6', '7', '8', '9', '0', '.', ' ']

/-- The list comprehension of lines 109, 111 and 113: split the string on
line breaks, keep the lines that are not pure whitespace, and for each
strip the given marker characters from both ends and then whitespace from
both ends. -/
def limpia_lineas (cs : List Char) (s : Str) : List Str :=
  (pySplit '\n' s).filterMap
    (fun f =>
      if (pyStripWs f).isEmpty then none
      else some (pyStripWs (pyStripChars cs f)))

/-- Lines 108-113: a string value is normalized through limpia_lineas, a
list value passes through unchanged. -/
def normaliza_lista (cs : List Char) (v : StrOrList) : List Str :=
  match v with
  | StrOrList.s s => limpia_lineas cs s
  | StrOrList.l l => l

/-- Line 88: lead.get("marca", "N/A"). -/
def marcaN (lead : Lead) : Str := lead.marca.getD (str "N/A")

/-- Line 89: lead.get("nombre", "Cliente"). -/
def clienteN (lead : Lead) : Str := lead.nombre.getD (str "Cliente")

/-- Line 90: lead.get("clase_sugerida", "N/A"). -/
def claseN (lead : Lead) : Str := lead.clase_sugerida.getD (str "N/A")

/-- Line 99: analisis.get("porcentaje_viabilidad", 0). -/
def viabilidadN (a : Analisis) : Int := a.porcentaje_viabilidad.getD 0

/-- Line 100: analisis.get("nivel_riesgo", "MEDIO"). -/
def nivel_riesgoN (a : Analisis) : Str := a.nivel_riesgo.getD (str "MEDIO")

/-- Line 101: analisis.get("analisis_principal", ""). -/
def analisis_principalN (a : Analisis) : Str := a.analisis_principal.getD (str "")

/-- Lines 102, 108-109: factores_riesgo with default [] then normalized. -/
def factores_riesgoN (a : Analisis) : List Str :=
  normaliza_lista vinietaChars (a.factores_riesgo.getD (StrOrList.l []))

/-- Lines 103, 110-111: factores_favorables with default [] then normalized. -/
def factores_favorablesN (a : Analisis) : List Str :=
  normaliza_lista vinietaChars (a.factores_favorables.getD (StrOrList.l []))

/-- Lines 104, 112-113: recomendaciones with default [] then normalized. -/
def recomendacionesN (a : Analisis) : List Str :=
  normaliza_lista numeroChars (a.recomendaciones.getD (StrOrList.l []))

/-- Line 105: analisis.get("marcas_conflictivas", []). -/
def marcas_conflictivasN (a : Analisis) : List Marca :=
  a.marcas_conflictivas.getD []

/-- Lines 116-120: the risk-color dict lookup keyed by the uppercased
risk level, with the gray fallback of .get. -/
def color_riesgo (nivel : Str) : Str :=
  if pyUpper nivel = str "BAJO" then str "#10b981"
  else if pyUpper nivel = str "MEDIO" then str "#f59e0b"
  else if pyUpper nivel = str "ALTO" then str "#ef4444"
  else str "#6b7280"

/-- Lines 206 and 210-212: the holder cell, defaulted then truncated to 40
characters plus "..." when longer than 40. -/
def titular_mostrado (m : Marca) : Str :=
  let titular := m.titular.getD (str "No especificado")
  if 40 < titular.length then titular.take 40 ++ str "..." else titular

example : marca_limpia (str "Café Sol!") = str "Café_Sol" := by decide
example : marca_limpia (str "!!!") = str "" := by decide
example : limpia_lineas vinietaChars (str "• a •\n\n• b") = [str "a", str "b"] := by decide
example : limpia_lineas numeroChars (str "1. Registre la marca.") = [str "Registre la marca"] := by decide
example : color_riesgo (str "bajo") = str "#10b981" := by decide

/-- Lines 214-223: one row of the conflicting-marks table, carrying the
1-based position and the defaulted fields of the entry. -/
def fila_marca (i : Nat) (m : Marca) : Str :=
  str "\n            <tr>\n                <td>" ++ natStr i ++
  str "</td>\n                <td><strong>" ++ m.denominacion.getD (str "N/A") ++
  str "</strong></td>\n                <td>" ++ m.expediente.getD (str "N/A") ++
  str "</td>\n                <td>" ++ titular_mostrado m ++
  str "</td>\n                <td>" ++ m.clase.getD (str "N/A") ++
  str "</td>\n                <td><span class=\"estado-marca\">" ++ m.estado.getD (str "N/A") ++
  str "</span></td>\n            </tr>\n            "

/-- Line 203: for i, marca in enumerate(marcas[:15], 1) — the rows built
by the loop, in order, one per entry of the first 15. -/
def filas_marcas (ms : List Marca) : List Str :=
  (ms.take 15).enum.map (fun p => fila_marca (p.1 + 1) p.2)

/-- Lines 194-200: the section rendered instead of the table when the
conflicting-marks list is empty. -/
def tabla_vacia : Str :=
  str "\n            <div class=\"seccion\">\n                <h2>Marcas Potencialmente Conflictivas</h2>\n                <p class=\"no-marcas\">No se identificaron marcas conflictivas significativas.</p>\n            </div>\n            "

/-- Lines 226-228: the caption head of the table section. -/
def tabla_cabecera : Str :=
  str "\n        <div class=\"seccion\">\n            <h2>Marcas Potencialmente Conflictivas</h2>\n            <p class=\"descripcion-tabla\">Se han identificado "

/-- Lines 228-240: the caption tail after the count, through the table
head down to the open tbody. -/
def tabla_tras_cuenta : Str :=
  str " marcas registradas que podrían representar un conflicto. A continuación se muestran las más relevantes:</p>\n            <table class=\"tabla-marcas\">\n                <thead>\n                    <tr>\n                        <th>#</th>\n                        <th>Denominación</th>\n                        <th>Expediente</th>\n                        <th>Titular</th>\n                        <th>Clase</th>\n                        <th>Estado</th>\n                    </tr>\n                </thead>\n                <tbody>\n                    "

/-- Lines 241-245: the closing markup after the rows. -/
def tabla_cierre : Str :=
  str "\n                </tbody>\n            </table>\n        </div>\n        "

/-- Lines 192-245: _generar_tabla_marcas. Empty input renders the
no-conflicts notice; otherwise a caption stating len(marcas) followed by
the table whose body is the concatenated rows of the first 15 entries. -/
def generar_tabla_marcas (ms : List Marca) : Str :=
  if ms.isEmpty then tabla_vacia
  else
    tabla_cabecera ++ natStr ms.length ++
      (tabla_tras_cuenta ++ (filas_marcas ms).flatten ++ tabla_cierre)

/-- Lines 247-266: _generar_lista. Empty items render nothing at all;
otherwise a section with one li per item, with the icon and color picked
by tipo. -/
def generar_lista (titulo : Str) (items : List Str) (tipo : Str) : Str :=
  if items.isEmpty then []
  else
    let icono := if tipo = str "riesgo" then str "⚠" else str "✓"
    let color := if tipo = str "riesgo" then str "#ef4444" else str "#10b981"
    let items_html :=
      (items.map (fun item =>
        str "<li><span class=\"icono\" style=\"color: " ++ color ++ str ";\">" ++
        icono ++ str "</span> " ++ item ++ str "</li>")).flatten
    str "\n        <div class=\"seccion\">\n            <h2>" ++ titulo ++
    str "</h2>\n            <ul class=\"lista-items\">\n                " ++ items_html ++
    str "\n            </ul>\n        </div>\n        "

/-- Lines 268-284: _generar_recomendaciones. Empty input renders nothing
at all; otherwise a numbered section with one li per recommendation. -/
def generar_recomendaciones (recomendaciones : List Str) : Str :=
  if recomendaciones.isEmpty then []
  else
    let items_html :=
      (recomendaciones.enum.map (fun p =>
        str "<li><strong>" ++ natStr (p.1 + 1) ++ str ".</strong> " ++ p.2 ++
        str "</li>")).flatten
    str "\n        <div class=\"seccion recomendaciones\">\n            <h2>Recomendaciones</h2>\n            <ol class=\"lista-recomendaciones\">\n                " ++
    items_html ++ str "\n            </ol>\n        </div>\n        "

/-- Line 164: analisis_principal.replace(chr(10), "<br>"). -/
def saltos_a_br (s : Str) : Str :=
  (s.map (fun c => if c = '\n' then str "<br>" else [c])).flatten

example : saltos_a_br (str "a\nb") = str "a<br>b" := by decide
example : generar_lista (str "t") [] (str "riesgo") = str "" := by decide
example : generar_recomendaciones [] = str "" := by decide

/-- Lines 84-190: _generar_html, the report body assembled in fixed
section order with the interpolations of the f-string. -/
def generar_html (lead : Lead) (analisis : Analisis) (r : Reloj) : Str :=
  str "\n<!DOCTYPE html>\n<html lang=\"es\">\n<head>\n    <meta charset=\"UTF-8\">\n    <title>Reporte de Análisis - " ++
  marcaN lead ++
  str "</title>\n</head>\n<body>\n    <!-- HEADER -->\n    <div class=\"header\">\n        <div class=\"logo-container\">\n            <div class=\"logo-text\">MARCA SEGURA</div>\n        </div>\n        <div class=\"header-title\">\n            <h1>Examen de Viabilidad aplicado a la marca<br><strong>" ++
  marcaN lead ++
  str "</strong><br>ante el IMPI</h1>\n        </div>\n        <div class=\"header-info\">\n            <p><strong>Fecha:</strong> " ++
  fecha_analisis r ++
  str "</p>\n            <p><strong>Cliente:</strong> " ++
  clienteN lead ++
  str "</p>\n            <p><strong>Clase Niza:</strong> " ++
  claseN lead ++
  str "</p>\n        </div>\n    </div>\n    \n    <!-- RESUMEN EJECUTIVO -->\n    <div class=\"seccion\">\n        <h2>Resumen Ejecutivo</h2>\n        <div class=\"viabilidad-container\">\n            <div class=\"viabilidad-box\">\n                <div class=\"viabilidad-label\">Porcentaje de Viabilidad</div>\n                <div class=\"viabilidad-valor\">" ++
  intStr (viabilidadN analisis) ++
  str "%</div>\n            </div>\n            <div class=\"riesgo-box\" style=\"border-color: " ++
  color_riesgo (nivel_riesgoN analisis) ++
  str ";\">\n                <div class=\"riesgo-label\">Nivel de Riesgo</div>\n                <div class=\"riesgo-valor\" style=\"color: " ++
  color_riesgo (nivel_riesgoN analisis) ++
  str ";\">" ++
  nivel_riesgoN analisis ++
  str "</div>\n            </div>\n        </div>\n    </div>\n    \n    <!-- ANÁLISIS DETALLADO -->\n    <div class=\"seccion\">\n        <h2>Análisis Detallado</h2>\n        <div class=\"texto-analisis\">\n            " ++
  saltos_a_br (analisis_principalN analisis) ++
  str "\n        </div>\n    </div>\n    \n    <!-- MARCAS CONFLICTIVAS -->\n    " ++
  generar_tabla_marcas (marcas_conflictivasN analisis) ++
  str "\n    \n    <!-- FACTORES DE RIESGO -->\n    " ++
  generar_lista (str "Factores de Riesgo") (factores_riesgoN analisis) (str "riesgo") ++
  str "\n    \n    <!-- FACTORES FAVORABLES -->\n    " ++
  generar_lista (str "Factores Favorables") (factores_favorablesN analisis) (str "favorable") ++
  str "\n    \n    <!-- RECOMENDACIONES -->\n    " ++
  generar_recomendaciones (recomendacionesN analisis) ++
  str "\n    \n    <!-- FOOTER -->\n    <div class=\"footer\">\n        <p>Este reporte ha sido elaborado por MARCA SEGURA</p>\n        <p>Consultores especializados en propiedad intelectual</p>\n        <p>Documento confidencial - Para uso exclusivo del cliente</p>\n    </div>\n</body>\n</html>\n        "

/-- Lines 286-456: _generar_css, the fixed stylesheet string. -/
def generar_css : Str :=
  str "\n        @page \x7b\n            size: Letter;\n            margin: 2cm 1.5cm;\n            \n            @top-right \x7b\n                content: \"Página \" counter(page) \" de \" counter(pages);\n                font-size: 9pt;\n                color: #6b7280;\n            \x7d\n        \x7d\n        \n        body \x7b\n            font-family: \x27Helvetica\x27, \x27Arial\x27, sans-serif;\n            font-size: 11pt;\n            line-height: 1.6;\n            color: #1f2937;\n        \x7d\n        \n        .header \x7b\n            text-align: center;\n            margin-bottom: 30px;\n            padding-bottom: 20px;\n            border-bottom: 3px solid #7c3aed;\n        \x7d\n        \n        .logo-text \x7b\n            font-size: 24pt;\n            font-weight: bold;\n            color: #7c3aed;\n            letter-spacing: 2px;\n        \x7d\n        " ++
  str "\n        .header-title h1 \x7b\n            font-size: 18pt;\n            color: #1f2937;\n            margin: 15px 0;\n            line-height: 1.4;\n        \x7d\n        \n        .header-title strong \x7b\n            color: #7c3aed;\n            font-size: 20pt;\n        \x7d\n        \n        .header-info \x7b\n            margin-top: 15px;\n            font-size: 10pt;\n            color: #6b7280;\n        \x7d\n        \n        .seccion \x7b\n            margin-bottom: 25px;\n            page-break-inside: avoid;\n        \x7d\n        \n        h2 \x7b\n            color: #7c3aed;\n            font-size: 14pt;\n            margin-bottom: 15px;\n            padding-bottom: 8px;\n            border-bottom: 2px solid #e5e7eb;\n        \x7d\n        \n        .viabilidad-container \x7b\n            display: flex;\n            justify-content: space-around;\n            margin: 20px 0;\n        \x7d\n        " ++
  str "\n        .viabilidad-box, .riesgo-box \x7b\n            text-align: center;\n            padding: 20px;\n            border: 3px solid #7c3aed;\n            border-radius: 10px;\n            width: 45%;\n        \x7d\n        \n        .viabilidad-valor \x7b\n            font-size: 36pt;\n            font-weight: bold;\n            color: #7c3aed;\n        \x7d\n        \n        .riesgo-valor \x7b\n            font-size: 24pt;\n            font-weight: bold;\n        \x7d\n        \n        .texto-analisis \x7b\n            background-color: #f9fafb;\n            padding: 15px;\n            border-left: 4px solid #7c3aed;\n            border-radius: 5px;\n            font-size: 10pt;\n            line-height: 1.8;\n        \x7d\n        \n        .tabla-marcas \x7b\n            width: 100%;\n            border-collapse: collapse;\n            font-size: 9pt;\n        \x7d\n        \n        .tabla-marcas thead \x7b\n            background-color: #7c3aed;\n            color: white;\n        \x7d\n        " ++
  str "\n        .tabla-marcas th \x7b\n            padding: 10px 8px;\n            text-align: left;\n        \x7d\n        \n        .tabla-marcas td \x7b\n            padding: 8px;\n            border-bottom: 1px solid #e5e7eb;\n        \x7d\n        \n        .tabla-marcas tbody tr:nth-child(even) \x7b\n            background-color: #f9fafb;\n        \x7d\n        \n        .lista-items \x7b\n            list-style: none;\n            padding: 0;\n        \x7d\n        \n        .lista-items li \x7b\n            margin-bottom: 10px;\n            padding-left: 30px;\n            position: relative;\n        \x7d\n        \n        .lista-items .icono \x7b\n            position: absolute;\n            left: 0;\n            font-size: 14pt;\n        \x7d\n        " ++
  str "\n        .recomendaciones \x7b\n            background-color: #fef3c7;\n            padding: 20px;\n            border-radius: 8px;\n            border-left: 5px solid #f59e0b;\n        \x7d\n        \n        .lista-recomendaciones \x7b\n            padding-left: 0;\n            list-style: none;\n        \x7d\n        \n        .lista-recomendaciones li \x7b\n            margin-bottom: 12px;\n        \x7d\n        \n        .lista-recomendaciones strong \x7b\n            color: #f59e0b;\n        \x7d\n        \n        .footer \x7b\n            margin-top: 40px;\n            padding-top: 20px;\n            border-top: 2px solid #e5e7eb;\n            text-align: center;\n            font-size: 9pt;\n            color: #6b7280;\n        \x7d\n        "

/-- The external effects of lines 66-73: WeasyPrint rendering plus the
filesystem write, as an oracle from (filepath, html, css) to success or
the message of a raised exception. -/
abbrev Render := Str → Str → Str → Except Str Unit

/-- Lines 36-82: generar_reporte. Builds the sanitized filename, the HTML
and the CSS, hands them to the renderer, and returns the path on success;
the try/except turns every signalled failure into None. -/
def generar_reporte (g : GeneradorPDF) (render : Render) (r : Reloj)
    (lead : Lead) (analisis : Analisis) : Option Str :=
  let filepath := ruta_archivo g lead r
  let html_content := generar_html lead analisis r
  let css_content := generar_css
  match render filepath html_content css_content with
  | Except.ok _ => some filepath
  | Except.error _ => none

/-- Concrete fixtures shared by the witnesses below. -/
def gDemo : GeneradorPDF := ⟨str "reportes", none⟩

/-- A fixed clock reading for the concrete evaluations. -/
def relojDemo : Reloj := ⟨1, 1, 2025, str "20250101_000000"⟩

/-- A lead with every key absent. -/
def leadDemo : Lead := ⟨none, none, none⟩

/-- An analysis with every key absent. -/
def anaDemo : Analisis := ⟨none, none, none, none, none, none, none⟩

/-- A renderer oracle that always succeeds. -/
def renderOk : Render := fun _ _ _ => Except.ok ()

/-- A renderer oracle that always signals a WeasyPrint failure. -/
def renderFalla : Render := fun _ _ _ => Except.error (str "WeasyPrint error")

/-- Membership survives dropWhile. -/
theorem mem_of_mem_dropWhileP {α : Type} {p : α → Bool} :
    ∀ {l : List α} {a : α}, a ∈ l.dropWhile p → a ∈ l := by
  intro l
  induction l with
  | nil => intro a h; exact h
  | cons x xs ih =>
      intro a h
      rw [List.dropWhile_cons] at h
      by_cases hx : p x = true
      · simp only [hx, if_true] at h
        exact List.mem_cons_of_mem x (ih h)
      · simp only [hx, if_false] at h
        exact h

/-- Membership survives Python str.strip(chars). -/
theorem mem_of_pyStripChars {cs : List Char} {s : Str} {c : Char}
    (h : c ∈ pyStripChars cs s) : c ∈ s := by
  unfold pyStripChars at h
  rw [List.mem_reverse] at h
  have h2 := mem_of_mem_dropWhileP h
  rw [List.mem_reverse] at h2
  exact mem_of_mem_dropWhileP h2

/-- C1: for every lead, analysis and renderer behavior, generar_reporte
never lets an error escape: it either returns the generated path or
returns the null result; a failure signalled by the renderer or the
filesystem is caught by the try/except and reported as none, and a
successful rendering returns the path. -/
theorem generar_reporte_atrapa_errores :
    ∀ (g : GeneradorPDF) (render : Render) (r : Reloj) (lead : Lead) (a : Analisis),
      (generar_reporte g render r lead a = none ∨
        generar_reporte g render r lead a = some (ruta_archivo g lead r)) ∧
      (∀ e, render (ruta_archivo g lead r) (generar_html lead a r) generar_css =
          Except.error e →
        generar_reporte g render r lead a = none) ∧
      (render (ruta_archivo g lead r) (generar_html lead a r) generar_css =
          Except.ok () →
        generar_reporte g render r lead a = some (ruta_archivo g lead r)) := by
  intro g render r lead a
  refine ⟨?_, ?_, ?_⟩ <;>
    cases h : render (ruta_archivo g lead r) (generar_html lead a r) generar_css <;>
    simp [generar_reporte, h]

/-- Witness for C1 at a concrete failing renderer: the caller sees none. -/
theorem generar_reporte_atrapa_errores_witness :
    generar_reporte gDemo renderFalla relojDemo leadDemo anaDemo = none :=
  (generar_reporte_atrapa_errores gDemo renderFalla relojDemo leadDemo anaDemo).2.1
    (str "WeasyPrint error") rfl

/-- A lead whose brand name consists only of disallowed characters. -/
def leadSoloSimbolos : Lead := ⟨some (str "!!!"), none, none⟩

/-- Counterexample to C2: for the brand name "!!!" the sanitized result is
empty, and no generic fallback label replaces it — the generated filename
carries an empty stem between the two underscores. The "marca" default of
line 49 applies only when the key itself is absent. -/
theorem marca_limpia_sin_respaldo_contra :
    marca_limpia (str "!!!") = str "" ∧
    nombre_archivo leadSoloSimbolos relojDemo = str "reporte__20250101_000000.pdf" ∧
    nombre_archivo leadSoloSimbolos relojDemo ≠
      str "reporte_marca_20250101_000000.pdf" := by
  refine ⟨by decide, by decide, by decide⟩

/-- C2 as amended: the sanitized stem contains only characters that are
alphanumeric, a hyphen or an underscore (spaces having been replaced by
underscores) and is at most 50 characters long; the generic label "marca"
is used only when the marca key is absent, while a present brand name that
sanitizes to the empty string leaves an empty stem. -/
theorem marca_limpia_caracteres :
    ∀ marca : Str,
      ((marca_limpia marca).all
        (fun c => pyIsAlnum c || c == '-' || c == '_')) = true ∧
      (marca_limpia marca).length ≤ 50 ∧
      (∀ nombre clase, marca_para_archivo ⟨none, nombre, clase⟩ = str "marca") ∧
      marca_limpia (str "!!!") = str "" := by
  intro marca
  refine ⟨?_, ?_, ?_, by decide⟩
  · rw [List.all_eq_true]
    intro c hc
    unfold marca_limpia at hc
    have hc1 := List.mem_of_mem_take hc
    rw [pyReplaceChar, List.mem_map] at hc1
    obtain ⟨d, hd, hdc⟩ := hc1
    unfold pyStripWs at hd
    have hd2 := mem_of_pyStripChars hd
    have hp := (List.mem_filter.mp hd2).2
    by_cases hsp : d = ' '
    · rw [if_pos hsp] at hdc
      subst hdc
      decide
    · rw [if_neg hsp] at hdc
      subst hdc
      simp only [Bool.or_eq_true, beq_iff_eq] at hp ⊢
      rcases hp with ((h1 | h2) | h3) | h4
      · exact Or.inl (Or.inl h1)
      · exact absurd h2 hsp
      · exact Or.inl (Or.inr h3)
      · exact Or.inr h4
  · unfold marca_limpia
    exact List.length_take_le _ _
  · intro nombre clase
    rfl

/-- C3: report generation never fails outright on missing optional fields:
every absent key is replaced by its documented textual fallback (N/A for
the brand and the class, the Cliente label, 0 viability, the MEDIO risk
default, the empty text and the empty lists), and with any succeeding
renderer a document is still produced at the generated path. -/
theorem campos_ausentes_con_respaldo :
    ∀ (lead : Lead) (a : Analisis) (g : GeneradorPDF) (r : Reloj),
      (lead.marca = none → marcaN lead = str "N/A") ∧
      (lead.nombre = none → clienteN lead = str "Cliente") ∧
      (lead.clase_sugerida = none → claseN lead = str "N/A") ∧
      (a.porcentaje_viabilidad = none → viabilidadN a = 0) ∧
      (a.nivel_riesgo = none → nivel_riesgoN a = str "MEDIO") ∧
      (a.analisis_principal = none → analisis_principalN a = str "") ∧
      (a.factores_riesgo = none → factores_riesgoN a = []) ∧
      (a.factores_favorables = none → factores_favorablesN a = []) ∧
      (a.recomendaciones = none → recomendacionesN a = []) ∧
      (a.marcas_conflictivas = none → marcas_conflictivasN a = []) ∧
      generar_reporte g renderOk r lead a = some (ruta_archivo g lead r) := by
  intro lead a g r
  refine ⟨?_, ?_, ?_, ?_, ?_, ?_, ?_, ?_, ?_, ?_, rfl⟩ <;>
    intro h <;>
    simp [marcaN, clienteN, claseN, viabilidadN, nivel_riesgoN,
      analisis_principalN, factores_riesgoN, factores_favorablesN,
      recomendacionesN, marcas_conflictivasN, normaliza_lista, h]

/-- Witness for C3 at the all-absent lead and analysis: every fallback is
taken and the succeeding renderer yields a path. -/
theorem campos_ausentes_con_respaldo_witness :
    marcaN leadDemo = str "N/A" ∧
    clienteN leadDemo = str "Cliente" ∧
    claseN leadDemo = str "N/A" ∧
    viabilidadN anaDemo = 0 ∧
    nivel_riesgoN anaDemo = str "MEDIO" ∧
    analisis_principalN anaDemo = str "" ∧
    factores_riesgoN anaDemo = [] ∧
    factores_favorablesN anaDemo = [] ∧
    recomendacionesN anaDemo = [] ∧
    marcas_conflictivasN anaDemo = [] ∧
    generar_reporte gDemo renderOk relojDemo leadDemo anaDemo =
      some (ruta_archivo gDemo leadDemo relojDemo) := by
  have h := campos_ausentes_con_respaldo leadDemo anaDemo gDemo relojDemo
  exact ⟨h.1 rfl, h.2.1 rfl, h.2.2.1 rfl, h.2.2.2.1 rfl, h.2.2.2.2.1 rfl,
    h.2.2.2.2.2.1 rfl, h.2.2.2.2.2.2.1 rfl, h.2.2.2.2.2.2.2.1 rfl,
    h.2.2.2.2.2.2.2.2.1 rfl, h.2.2.2.2.2.2.2.2.2.1 rfl,
    h.2.2.2.2.2.2.2.2.2.2⟩

/-- A conflicting-marks list with 16 entries, more than the 15-row cap. -/
def marcas16 : List Marca := List.replicate 16 ⟨none, none, none, none, none⟩

set_option maxRecDepth 16384 in
/-- C4: when conflicting_marks has more than 15 entries the rendered table
body holds exactly 15 rows, the rows of the first 15 entries in order; an
empty conflicting_marks list renders the no-conflicts notice, which shows
the none-found text and contains no table markup. -/
theorem tabla_quince_filas :
    (∀ ms : List Marca, 15 < ms.length →
      (filas_marcas ms).length = 15 ∧ filas_marcas ms = filas_marcas (ms.take 15)) ∧
    generar_tabla_marcas [] = tabla_vacia ∧
    esSubcadena (str "No se identificaron marcas conflictivas") tabla_vacia = true ∧
    esSubcadena (str "<table") tabla_vacia = false := by
  refine ⟨?_, rfl, by decide, by decide⟩
  intro ms h
  constructor
  · simp only [filas_marcas, List.length_map, List.enum_length, List.length_take]
    omega
  · simp [filas_marcas, List.take_take]

/-- Witness for C4 at a 16-entry list: exactly 15 rows, from the first 15. -/
theorem tabla_quince_filas_witness :
    (filas_marcas marcas16).length = 15 ∧
    filas_marcas marcas16 = filas_marcas (marcas16.take 15) :=
  tabla_quince_filas.1 marcas16 (by decide)

/-- C10: for every non-empty conflicting_marks list the caption above the
table interpolates the total input length, so with more than 15 entries
the stated count exceeds the 15 rendered rows. -/
theorem descripcion_cuenta_total :
    ∀ ms : List Marca, ms ≠ [] →
      (∃ pre post, generar_tabla_marcas ms = pre ++ natStr ms.length ++ post) ∧
      (15 < ms.length →
        (filas_marcas ms).length = 15 ∧ (filas_marcas ms).length < ms.length) := by
  intro ms h
  constructor
  · cases ms with
    | nil => exact absurd rfl h
    | cons x xs =>
        exact ⟨tabla_cabecera,
          tabla_tras_cuenta ++ (filas_marcas (x :: xs)).flatten ++ tabla_cierre,
          by simp [generar_tabla_marcas, List.append_assoc]⟩
  · intro h15
    have hlen : (filas_marcas ms).length = 15 := by
      simp only [filas_marcas, List.length_map, List.enum_length, List.length_take]
      omega
    exact ⟨hlen, by omega⟩

/-- Witness for C10 at the 16-entry list: the caption states 16 while only
15 rows are rendered. -/
theorem descripcion_cuenta_total_witness :
    (∃ pre post, generar_tabla_marcas marcas16 = pre ++ natStr marcas16.length ++ post) ∧
    (filas_marcas marcas16).length = 15 ∧
    (filas_marcas marcas16).length < marcas16.length :=
  ⟨(descripcion_cuenta_total marcas16 (by decide)).1,
   (descripcion_cuenta_total marcas16 (by decide)).2 (by decide)⟩

/-- A 41-character holder name. -/
def titular41 : Str := List.replicate 41 'a'

/-- A conflicting mark whose holder is longer than 40 characters. -/
def marca41 : Marca := ⟨none, none, some titular41, none, none⟩

/-- C5: a holder longer than 40 characters is rendered as exactly its
first 40 characters followed by the "..." ellipsis marker, and a holder of
at most 40 characters is rendered unchanged. -/
theorem titular_truncado :
    ∀ m : Marca,
      (40 < (m.titular.getD (str "No especificado")).length →
        titular_mostrado m =
          (m.titular.getD (str "No especificado")).take 40 ++ str "..." ∧
        ((m.titular.getD (str "No especificado")).take 40).length = 40 ∧
        ∃ resto, m.titular.getD (str "No especificado") =
          (m.titular.getD (str "No especificado")).take 40 ++ resto) ∧
      ((m.titular.getD (str "No especificado")).length ≤ 40 →
        titular_mostrado m = m.titular.getD (str "No especificado")) := by
  intro m
  constructor
  · intro h
    refine ⟨?_, ?_, ⟨(m.titular.getD (str "No especificado")).drop 40, ?_⟩⟩
    · simp [titular_mostrado, h]
    · rw [List.length_take]
      omega
    · rw [List.take_append_drop]
  · intro h
    have h' : ¬ 40 < (m.titular.getD (str "No especificado")).length := by omega
    simp [titular_mostrado, h']

/-- Witness for C5 at the 41-character holder. -/
theorem titular_truncado_witness :
    titular_mostrado marca41 = titular41.take 40 ++ str "..." ∧
    (titular41.take 40).length = 40 ∧
    (∃ resto, titular41 = titular41.take 40 ++ resto) :=
  (titular_truncado marca41).1 (by decide)

/-- C6: the rendered risk color is keyed case-insensitively by the
uppercased level — BAJO yields the green constant, MEDIO the amber one,
ALTO the red one — and every level recognized as none of the three yields
the neutral gray fallback. -/
theorem color_por_nivel :
    ∀ nivel : Str,
      (pyUpper nivel = str "BAJO" → color_riesgo nivel = str "#10b981") ∧
      (pyUpper nivel = str "MEDIO" → color_riesgo nivel = str "#f59e0b") ∧
      (pyUpper nivel = str "ALTO" → color_riesgo nivel = str "#ef4444") ∧
      (pyUpper nivel ≠ str "BAJO" → pyUpper nivel ≠ str "MEDIO" →
        pyUpper nivel ≠ str "ALTO" → color_riesgo nivel = str "#6b7280") := by
  intro nivel
  refine ⟨?_, ?_, ?_, ?_⟩
  · intro h; simp [color_riesgo, h]
  · intro h; simp only [color_riesgo, h]; decide
  · intro h; simp only [color_riesgo, h]; decide
  · intro h1 h2 h3; simp [color_riesgo, h1, h2, h3]

/-- Witness for C6 at concrete mixed-case and unrecognized levels. -/
theorem color_por_nivel_witness :
    color_riesgo (str "bajo") = str "#10b981" ∧
    color_riesgo (str "Medio") = str "#f59e0b" ∧
    color_riesgo (str "alto") = str "#ef4444" ∧
    color_riesgo (str "desconocido") = str "#6b7280" :=
  ⟨(color_por_nivel (str "bajo")).1 (by decide),
   (color_por_nivel (str "Medio")).2.1 (by decide),
   (color_por_nivel (str "alto")).2.2.1 (by decide),
   (color_por_nivel (str "desconocido")).2.2.2 (by decide) (by decide) (by decide)⟩

/-- Modelled from the spec words of C7, for comparison with the code: keep
each non-empty line, strip its surrounding whitespace and only its LEADING
bullet/number markers, leaving the rest of the text of the line intact. -/
def limpia_lineas_segun_claim (cs : List Char) (s : Str) : List Str :=
  (pySplit '\n' s).filterMap
    (fun f =>
      if (pyStripWs f).isEmpty then none
      else some (pyStripWs ((pyStripWs f).dropWhile (cs.contains ·))))

/-- Counterexample to C7: on a line with a trailing bullet marker the code
also strips the marker (and adjoining spaces) from the END of the line, so
the rest of the text of the line is not kept intact: the code yields "Marca en
clase 30" where the claimed leading-only stripping yields "Marca en clase
30 •". The same happens to recommendations ending in a digit or period. -/
theorem limpia_lineas_recorta_final_contra :
    limpia_lineas vinietaChars (str "• Marca en clase 30 •") =
      [str "Marca en clase 30"] ∧
    limpia_lineas_segun_claim vinietaChars (str "• Marca en clase 30 •") =
      [str "Marca en clase 30 •"] ∧
    limpia_lineas numeroChars (str "1. Registre la marca.") =
      [str "Registre la marca"] ∧
    limpia_lineas vinietaChars (str "• Marca en clase 30 •") ≠
      limpia_lineas_segun_claim vinietaChars (str "• Marca en clase 30 •") := by
  refine ⟨by decide, by decide, by decide, by decide⟩

/-- The comprehension shape shared by lines 109, 111 and 113: a filterMap
whose function drops exactly the elements failing the guard is the map of
the guard-passing sublist. -/
theorem filterMap_ite_none {α β : Type} (p : α → Bool) (g : α → β) :
    ∀ l : List α,
      (l.filterMap fun a => if p a then none else some (g a)) =
        (l.filter fun a => !p a).map g := by
  intro l
  induction l with
  | nil => rfl
  | cons x xs ih =>
      cases hx : p x with
      | true => simp [List.filterMap_cons, List.filter_cons, hx, ih]
      | false => simp [List.filterMap_cons, List.filter_cons, hx, ih]

/-- C7 as amended: a string-typed list field is normalized by splitting on
line breaks, discarding the lines that are whitespace-only, and stripping
the bullet/number markers and spaces of every line from BOTH ends (then any
remaining surrounding whitespace) — one rendered item per non-empty line. -/
theorem limpia_lineas_normaliza :
    (∀ (cs : List Char) (s : Str),
      limpia_lineas cs s =
        ((pySplit '\n' s).filter (fun f => !(pyStripWs f).isEmpty)).map
          (fun f => pyStripWs (pyStripChars cs f))) ∧
    limpia_lineas vinietaChars (str "• riesgo fonético\n\n• riesgo visual") =
      [str "riesgo fonético", str "riesgo visual"] ∧
    limpia_lineas numeroChars (str "1. Registrar pronto\n2. Vigilar siempre") =
      [str "Registrar pronto", str "Vigilar siempre"] := by
  refine ⟨fun cs s => ?_, by decide, by decide⟩
  exact filterMap_ite_none (fun f => (pyStripWs f).isEmpty)
    (fun f => pyStripWs (pyStripChars cs f)) (pySplit '\n' s)

/-- C8: an empty recommendations list contributes the empty string to the
document — no heading and no empty block — and likewise an empty
risk-factor list and an empty favorable-factor list; in particular the
three section calls of _generar_html on the all-empty analysis all render
nothing. -/
theorem secciones_vacias_ausentes :
    (∀ titulo tipo : Str, generar_lista titulo [] tipo = str "") ∧
    generar_recomendaciones [] = str "" ∧
    generar_lista (str "Factores de Riesgo") (factores_riesgoN anaDemo)
      (str "riesgo") = str "" ∧
    generar_lista (str "Factores Favorables") (factores_favorablesN anaDemo)
      (str "favorable") = str "" ∧
    generar_recomendaciones (recomendacionesN anaDemo) = str "" :=
  ⟨fun _ _ => rfl, rfl, rfl, rfl, rfl⟩

/-- The example lead of the end-to-end case. -/
def leadC9 : Lead :=
  ⟨some (str "Café Sol!"), some (str "Juan Pérez"), some (str "30")⟩

/-- The example analysis of the end-to-end case. -/
def anaC9 : Analisis :=
  ⟨some 72, some (str "ALTO"), none, none, none, none, some []⟩

/-- Counterexample to C9: the Python str.isalnum keeps the letter é, so the
sanitized stem of "Café Sol!" is "Café_Sol", not "Caf_Sol" — only the "!"
is stripped. The generated path therefore differs from the claimed
reporte_Caf_Sol_<timestamp>.pdf at the concrete clock reading. -/
theorem reporte_cafe_sol_contra :
    generar_reporte gDemo renderOk relojDemo leadC9 anaC9 =
      some (str "reportes/reporte_Café_Sol_20250101_000000.pdf") ∧
    generar_reporte gDemo renderOk relojDemo leadC9 anaC9 ≠
      some (str "reportes/reporte_Caf_Sol_20250101_000000.pdf") := by
  refine ⟨by decide, by decide⟩

set_option maxRecDepth 16384 in
/-- C9 as amended: the example produces the file
reporte_Café_Sol_<timestamp>.pdf (sanitization strips the "!" but keeps
the alphanumeric é), the risk section is rendered with the HIGH red
color, and the conflicting-marks section renders the none-found notice. -/
theorem reporte_cafe_sol :
    generar_reporte gDemo renderOk relojDemo leadC9 anaC9 =
      some (str "reportes/reporte_Café_Sol_20250101_000000.pdf") ∧
    color_riesgo (nivel_riesgoN anaC9) = str "#ef4444" ∧
    generar_tabla_marcas (marcas_conflictivasN anaC9) = tabla_vacia ∧
    esSubcadena (str "No se identificaron marcas conflictivas") tabla_vacia = true := by
  refine ⟨by decide, by decide, rfl, by decide⟩
